import Mathlib

/-!
Verification of the job-queue / session-coordination layer of the
Telegram PDF utility bot (`src/bot.py`).

The Python source is shallowly embedded: pure helpers become Lean
functions, the global mutable state (`job_queue`, `MERGE_QUEUE`,
`context.user_data`, the working directory) becomes explicit state
records threaded through the handlers, and the single worker thread
(`worker`, src/bot.py:166-175) becomes sequential consumption of the
FIFO queue, producing an event trace.
-/

set_option maxRecDepth 100000

namespace PdfBot

/-! ## Job queue and worker (src/bot.py:163-178)

`job_queue = Queue()` is an unbounded FIFO; `enqueue` (line 177) does
`job_queue.put(task_callable)`; the single daemon thread started at
line 175 runs `worker` (lines 166-173): an infinite loop that dequeues
one task, invokes it inside `try/except` (printing the error on
failure), and proceeds to the next task.

A job's payload is opaque to the worker; the only thing the worker's
control flow observes is whether invoking it raises.  `Outcome` records
that observation. -/

/-- Result of invoking a job's payload: it either returns (`ok`) or
raises an exception (`err`). -/
inductive Outcome
  | ok
  | err
deriving DecidableEq, Repr

/-- A deferred unit of work as seen by the worker: an identifier (its
submission index) and the behaviour of its payload when invoked. -/
structure Job where
  id : Nat
  payload : Outcome
deriving DecidableEq, Repr

/-- Observable events of the worker's execution: a job's payload starts
executing, finishes normally, or raises (the `except` branch at
src/bot.py:171-172). -/
inductive Event
  | started (id : Nat)
  | completed (id : Nat)
  | failed (id : Nat)
deriving DecidableEq, Repr

/-- The event the worker's `try/except` produces after invoking the
payload: `completed` if it returned, `failed` if it raised
(src/bot.py:169-172). -/
def finishEvent (j : Job) : Event :=
  match j.payload with
  | .ok => .completed j.id
  | .err => .failed j.id

/-- Trace of the worker executing one dequeued job: it starts the
payload, then records the outcome.  The `except` clause only prints, so
both outcomes fall through to `job_queue.task_done()` and the loop's
next iteration. -/
def runJob (j : Job) : List Event :=
  [Event.started j.id, finishEvent j]

/-- The worker loop (src/bot.py:166-173) consuming the queue contents
in FIFO order: dequeue the head, run it, continue with the rest. -/
def workerRun : List Job → List Event
  | [] => []
  | j :: rest => runJob j ++ workerRun rest

/-- `enqueue` (src/bot.py:177-178): `job_queue.put` appends at the tail
of the FIFO. -/
def enqueue (q : List Job) (j : Job) : List Job :=
  q ++ [j]

/-- Queue contents after a sequence of jobs is passed to `enqueue`, in
submission order, starting from the empty queue created at
src/bot.py:38. -/
def enqueueAll (jobs : List Job) : List Job :=
  jobs.foldl enqueue []

/-- The submission indices of the payload-start events of a trace, in
trace order. -/
def startedIds (tr : List Event) : List Nat :=
  tr.filterMap fun e =>
    match e with
    | .started i => some i
    | _ => none

/-- Whether an event is a payload start. -/
def isStart : Event → Bool
  | .started _ => true
  | _ => false

/-- Whether an event is a payload finish (normal or raising). -/
def isFinish : Event → Bool
  | .completed _ => true
  | .failed _ => true
  | _ => false

/-- Number of payloads executing after a (prefix of a) trace: starts
minus finishes. -/
def runningCount (tr : List Event) : Int :=
  (tr.countP isStart : Int) - (tr.countP isFinish : Int)

theorem enqueue_foldl (jobs : List Job) (acc : List Job) :
    jobs.foldl enqueue acc = acc ++ jobs := by
  induction jobs generalizing acc with
  | nil => simp
  | cons j rest ih => simp [enqueue, ih]

theorem enqueueAll_eq (jobs : List Job) : enqueueAll jobs = jobs := by
  simp [enqueueAll, enqueue_foldl]

theorem startedIds_workerRun (jobs : List Job) :
    startedIds (workerRun jobs) = jobs.map Job.id := by
  induction jobs with
  | nil => rfl
  | cons j rest ih =>
      cases hj : j.payload <;>
        simp [workerRun, runJob, startedIds, finishEvent, hj] <;>
        simpa [startedIds] using ih

theorem runningCount_cons_start (i : Nat) (tr : List Event) :
    runningCount (Event.started i :: tr) = runningCount tr + 1 := by
  simp [runningCount, List.countP_cons, isStart, isFinish]
  ring

theorem runningCount_finish_cons (j : Job) (tr : List Event) :
    runningCount (finishEvent j :: tr) = runningCount tr - 1 := by
  cases hj : j.payload <;>
    simp [runningCount, finishEvent, hj, List.countP_cons, isStart, isFinish] <;>
    ring

theorem runningCount_take_workerRun (jobs : List Job) :
    ∀ n, runningCount ((workerRun jobs).take n) ≤ 1 := by
  induction jobs with
  | nil =>
      intro n
      simp [workerRun, runningCount]
  | cons j rest ih =>
      intro n
      match n with
      | 0 => simp [runningCount]
      | 1 =>
          have h : (workerRun (j :: rest)).take 1 = [Event.started j.id] := by
            simp [workerRun, runJob]
          rw [h]
          norm_num [runningCount, List.countP_cons, List.countP_nil,
            isStart, isFinish]
      | Nat.succ (Nat.succ m) =>
          have h :
              (workerRun (j :: rest)).take (m + 2)
                = Event.started j.id :: finishEvent j ::
                    (workerRun rest).take m := by
            simp [workerRun, runJob]
          rw [h, runningCount_cons_start, runningCount_finish_cons]
          have := ih m
          omega

/-- C1: for every sequence of jobs passed to `enqueue`, the worker
executes their payloads in exactly submission order (the payload-start
events of the worker's trace carry the submission indices in order),
and at most one payload is executing at any instant (every prefix of
the trace has at most one started-but-unfinished job). -/
theorem worker_fifo_and_serialized (jobs : List Job) :
    startedIds (workerRun (enqueueAll jobs)) = jobs.map Job.id ∧
    ∀ n, runningCount ((workerRun (enqueueAll jobs)).take n) ≤ 1 := by
  rw [enqueueAll_eq]
  exact ⟨startedIds_workerRun jobs, runningCount_take_workerRun jobs⟩

/-- C2: a payload that raises is caught at the worker boundary
(src/bot.py:171-172) and reported as a `failed` event; the loop does
not terminate and the rest of the queue is unaffected: the remaining
trace is exactly the worker's trace on the remaining queue, and in
particular the next queued job's payload starts next. -/
theorem worker_failure_isolated (j : Job) (rest : List Job)
    (h : j.payload = Outcome.err) :
    workerRun (j :: rest)
      = Event.started j.id :: Event.failed j.id :: workerRun rest ∧
    ∀ j2 rest2, rest = j2 :: rest2 →
      (workerRun (j :: rest))[2]? = some (Event.started j2.id) := by
  constructor
  · simp [workerRun, runJob, finishEvent, h]
  · intro j2 rest2 hrest
    subst hrest
    simp [workerRun, runJob, finishEvent, h]

/-- Witness for C2 at a concrete failing job followed by a succeeding
one. -/
theorem worker_failure_isolated_witness :
    workerRun [⟨0, Outcome.err⟩, ⟨1, Outcome.ok⟩]
      = Event.started 0 :: Event.failed 0 :: workerRun [⟨1, Outcome.ok⟩] ∧
    (workerRun [⟨0, Outcome.err⟩, ⟨1, Outcome.ok⟩])[2]?
      = some (Event.started (1 : Nat)) :=
  ⟨(worker_failure_isolated ⟨0, Outcome.err⟩ [⟨1, Outcome.ok⟩] rfl).1,
   (worker_failure_isolated ⟨0, Outcome.err⟩ [⟨1, Outcome.ok⟩] rfl).2
     ⟨1, Outcome.ok⟩ [] rfl⟩

/-! ## Python string primitives

The handlers manipulate file names with `str.lower()`, `str.endswith`
and `str.replace`.  Python strings are sequences of code points, so
these are modelled on `String.data : List Char`. -/

/-- `str.lower()` restricted to what the source applies it to (ASCII
file names): Python lowercases `A`-`Z` exactly as `Char.toLower`
does. -/
def pyLower (s : String) : String :=
  ⟨s.data.map Char.toLower⟩

/-- `str.endswith(suffix)`: the code points of `suffix` are a suffix of
those of `s`. -/
def pyEndsWith (s suffix : String) : Bool :=
  suffix.data.isSuffixOf s.data

/-- Fuel-indexed core of `str.replace`: scan left to right, replacing
each non-overlapping occurrence of `old` by `new`.  The fuel (always
instantiated with the length of the scanned list, which bounds the
number of scanning steps) only serves structural termination; for
non-empty `old` each step consumes at least one character. -/
def replaceListAux (old new : List Char) : Nat → List Char → List Char
  | 0, s => s
  | _ + 1, [] => []
  | fuel + 1, c :: rest =>
      if !old.isEmpty && old.isPrefixOf (c :: rest) then
        new ++ replaceListAux old new fuel ((c :: rest).drop old.length)
      else
        c :: replaceListAux old new fuel rest

/-- `str.replace(old, new)` for non-empty `old` (the source only ever
passes the pattern `".pdf"`): replaces every non-overlapping occurrence,
scanning left to right; a string containing no occurrence of `old` is
returned unchanged. -/
def pyReplace (s old new : String) : String :=
  ⟨replaceListAux old.data new.data s.data.length s.data⟩

/-! ## Document store, upload handler, and the `require_pdf` guard
(src/bot.py:183-218)

`context.user_data` is per-session key-value storage; the only key the
source uses is `"last_pdf"`.  Files on disk are modelled as the list of
paths that exist.  -/

/-- The working directory, `WORK = "pdf_files"` (src/bot.py:35). -/
def WORK : String := "pdf_files"

/-- Mutable state the handlers touch: each session's
`user_data["last_pdf"]` and the set of files existing on disk. -/
structure Store where
  last_pdf : Nat → Option String
  fs : List String

/-- `os.path.exists` over the modelled disk. -/
def os_path_exists (st : Store) (p : String) : Bool :=
  st.fs.contains p

/-- The empty initial state: no uploads recorded, empty working
directory. -/
def st0 : Store :=
  { last_pdf := fun _ => none, fs := [] }

/-- The spec's `getCurrent`: the session's recorded reference, or
absent when no upload was recorded or the recorded path fails the
guard's `not pdf or not os.path.exists(pdf)` test (src/bot.py:187; a
recorded empty string is also falsy in Python). -/
def getCurrent (st : Store) (sid : Nat) : Option String :=
  match st.last_pdf sid with
  | none => none
  | some pdf =>
      if pdf = "" || !os_path_exists st pdf then none else some pdf

/-- Observable outcome of dispatching one command: the user-facing
replies sent and the tasks passed to `enqueue`, in order. -/
structure CmdResult where
  replies : List String
  enqueued : List String
deriving DecidableEq, Repr

/-- The fast-fail result of the `require_pdf` guard: one reply, nothing
enqueued (src/bot.py:188-189). -/
def noDocResult : CmdResult :=
  { replies := ["Please upload a PDF first."], enqueued := [] }

/-- The `require_pdf` decorator (src/bot.py:183-191): reads the
session's `last_pdf`; if it is falsy or the file no longer exists it
replies "Please upload a PDF first." and returns without calling the
wrapped command body; otherwise it runs the body. -/
def require_pdf (body : String → CmdResult) (st : Store) (sid : Nat) :
    CmdResult :=
  match st.last_pdf sid with
  | none => noDocResult
  | some pdf =>
      if pdf = "" || !os_path_exists st pdf then noDocResult
      else body pdf

/-- The state update of a successful upload (src/bot.py:212-213):
`download_to_drive(local_path)` creates the file on disk, then
`user_data["last_pdf"] = local_path` unconditionally overwrites the
session's reference. -/
def recordUpload (st : Store) (sid : Nat) (ref : String) : Store :=
  { last_pdf := fun s => if s = sid then some ref else st.last_pdf s,
    fs := st.fs ++ [ref] }

/-- `safe_name = f"{update.message.from_user.id}_{int(time.time())}_{doc.file_name}"`
(src/bot.py:208). -/
def safeName (uid ts : Nat) (fileName : String) : String :=
  toString uid ++ "_" ++ toString ts ++ "_" ++ fileName

/-- `local_path = os.path.join(WORK, safe_name)` (src/bot.py:209);
`WORK` is a relative name without trailing separator, so the join is
concatenation with `/`. -/
def localPath (uid ts : Nat) (fileName : String) : String :=
  WORK ++ "/" ++ safeName uid ts fileName

/-- Observable outcome of the upload handler: resulting state, replies
sent, and the path downloaded to (if any). -/
structure UploadOutcome where
  store : Store
  replies : List String
  downloaded : Option String

/-- `handle_pdf_upload` (src/bot.py:203-218), for a message carrying
document `doc` (`none` when `update.message.document` is `None`): a
missing document or a file name not ending (case-insensitively) in
".pdf" is rejected with one reply and nothing downloaded or recorded;
otherwise the file is downloaded to `local_path`, the session's
`last_pdf` is overwritten, and two replies are sent ("Downloading" and
the summary, abstracted here to a fixed marker). -/
def handle_pdf_upload (st : Store) (uid ts : Nat) (doc : Option String) :
    UploadOutcome :=
  match doc with
  | none => ⟨st, ["Please upload a PDF file."], none⟩
  | some fileName =>
      if !pyEndsWith (pyLower fileName) ".pdf" then
        ⟨st, ["Please upload a PDF file."], none⟩
      else
        let path := localPath uid ts fileName
        ⟨recordUpload st uid path,
         ["Downloading your PDF...", "PDF received!"], some path⟩

/-- The derived output destination of `/clean`:
`out = pdf.replace(".pdf", "_clean.pdf")` (src/bot.py:227). -/
def clean_out_path (pdf : String) : String :=
  pyReplace pdf ".pdf" "_clean.pdf"

/-- C3: dispatching a command through `require_pdf` when the session's
current document is absent (no upload recorded, or the recorded file no
longer on disk) yields the fast-fail result for every wrapped body:
exactly one user-facing precondition message, nothing enqueued, and the
body never entered (the outcome does not depend on `body`). -/
theorem require_pdf_absent_rejects (st : Store) (sid : Nat)
    (h : getCurrent st sid = none) (body : String → CmdResult) :
    require_pdf body st sid = noDocResult ∧
    (require_pdf body st sid).enqueued = [] ∧
    (require_pdf body st sid).replies = ["Please upload a PDF first."] := by
  have hno : require_pdf body st sid = noDocResult := by
    unfold getCurrent at h
    unfold require_pdf
    cases hl : st.last_pdf sid with
    | none => rfl
    | some pdf =>
        rw [hl] at h
        by_cases hc : (pdf = "" || !os_path_exists st pdf) = true
        · simp [hc]
        · simp [hc] at h
  exact ⟨hno, by rw [hno]; rfl, by rw [hno]; rfl⟩

/-- A concrete command body that would reply and enqueue a job if it
were entered; used to witness that the guard never enters it. -/
def demoBody : String → CmdResult :=
  fun pdf => ⟨[pdf], ["job"]⟩

/-- Witness for C3: a fresh session with no recorded upload, and a body
that would reply and enqueue if entered. -/
theorem require_pdf_absent_rejects_witness :
    require_pdf demoBody st0 0 = noDocResult ∧
    (require_pdf demoBody st0 0).enqueued = [] ∧
    (require_pdf demoBody st0 0).replies
      = ["Please upload a PDF first."] :=
  require_pdf_absent_rejects st0 0 rfl demoBody

/-- C4: the upload handler's write is last-write-wins per session:
after recording upload `ref` the session's current document is `ref`,
and after a second upload `ref2` to the same session it is `ref2` — the
newest upload unconditionally overwrites the previous reference.  (The
recorded paths are non-empty; the handler always records
`"pdf_files/..."`.) -/
theorem record_upload_last_write_wins (st : Store) (sid : Nat)
    (ref ref2 : String) (h1 : ref ≠ "") (h2 : ref2 ≠ "") :
    getCurrent (recordUpload st sid ref) sid = some ref ∧
    getCurrent (recordUpload (recordUpload st sid ref) sid ref2) sid
      = some ref2 := by
  constructor <;> simp [getCurrent, recordUpload, os_path_exists, h1, h2]

/-- Witness for C4 at concrete non-empty references. -/
theorem record_upload_last_write_wins_witness :
    getCurrent (recordUpload st0 0 "pdf_files/a.pdf") 0
      = some "pdf_files/a.pdf" ∧
    getCurrent
        (recordUpload (recordUpload st0 0 "pdf_files/a.pdf") 0
          "pdf_files/b.pdf") 0
      = some "pdf_files/b.pdf" :=
  record_upload_last_write_wins st0 0 "pdf_files/a.pdf" "pdf_files/b.pdf"
    (by decide) (by decide)

/-- C9: an uploaded document whose file name does not end,
case-insensitively, in ".pdf" is rejected: one reply, nothing
downloaded, and the whole store — in particular the session's
current-document reference — left unchanged. -/
theorem upload_rejects_non_pdf (st : Store) (uid ts : Nat)
    (name : String) (h : pyEndsWith (pyLower name) ".pdf" = false) :
    handle_pdf_upload st uid ts (some name)
      = ⟨st, ["Please upload a PDF file."], none⟩ := by
  simp [handle_pdf_upload, h]

/-- Witness for C9 at a concrete non-PDF file name. -/
theorem upload_rejects_non_pdf_witness :
    handle_pdf_upload st0 7 1700000000 (some "notes.txt")
      = ⟨st0, ["Please upload a PDF file."], none⟩ :=
  upload_rejects_non_pdf st0 7 1700000000 "notes.txt" (by decide)

/-- C10: a file named "doc.PDF" passes the case-insensitive upload
check and is recorded under a path ending in the uppercase ".PDF"; the
`/clean` command's derived output path — a case-sensitive replacement
of the lowercase ".pdf" — then equals the input path, so
`remove_watermark(pdf, out)` writes its output over the uploaded
original. -/
theorem clean_output_overwrites_uppercase_upload :
    pyEndsWith (pyLower "doc.PDF") ".pdf" = true ∧
    (handle_pdf_upload st0 7 1700000000 (some "doc.PDF")).store.last_pdf 7
      = some "pdf_files/7_1700000000_doc.PDF" ∧
    (handle_pdf_upload st0 7 1700000000 (some "doc.PDF")).downloaded
      = some "pdf_files/7_1700000000_doc.PDF" ∧
    clean_out_path "pdf_files/7_1700000000_doc.PDF"
      = "pdf_files/7_1700000000_doc.PDF" := by
  refine ⟨by decide, ?_, by decide, by decide⟩
  show (if 7 = 7 then some (localPath 7 1700000000 "doc.PDF")
        else st0.last_pdf 7) = some "pdf_files/7_1700000000_doc.PDF"
  decide

/-! ## Progress bar (src/bot.py:57-68)

`progress_bar(message, total_steps, action, speed)` loops
`for step in range(1, total_steps + 1)`, computing
`filled = int(bar_length * step / total_steps)` (with `bar_length = 20`)
and `percent = int((step / total_steps) * 100)`, edits the status
message inside `try/except: pass`, and sleeps.

CPython floats are IEEE-754 binary64 with correctly rounded
(round-to-nearest, ties-to-even) division and multiplication, so the
arithmetic is modelled exactly: fractions of integers stand for exact
real values, `roundToDouble` is rounding to the nearest binary64
value, and `int()` on a non-negative double is the floor.  All values
arising here are positive and lie well inside the normal binary64
range, where this model is exact. -/

/-- An exact (unnormalised) fraction `num / den` with positive
denominator, standing for a real intermediate value. -/
structure Frac where
  num : Int
  den : Int
deriving DecidableEq, Repr

/-- Floor of a fraction (denominator positive), i.e. Python `int()` of
a non-negative value. -/
def Frac.fl (x : Frac) : Int :=
  Int.fdiv x.num x.den

/-- Round a fraction to the nearest integer, ties to even — the
rounding applied to the scaled 53-bit significand. -/
def rne (x : Frac) : Int :=
  let f := x.fl
  let r2 := 2 * (x.num - f * x.den)
  if r2 < x.den then f
  else if x.den < r2 then f + 1
  else if f % 2 = 0 then f else f + 1

/-- Scale a positive fraction below `2^52` up by powers of two until
its value reaches `[2^52, 2^53)`, returning the scaled fraction and the
binary exponent (`x = m * 2^e`).  The fuel bounds the doublings; `1200`
covers the entire binary64 range. -/
def scaleUp : Nat → Frac → Frac × Int
  | 0, x => (x, 0)
  | fuel + 1, x =>
      if x.num < 4503599627370496 * x.den then
        let p := scaleUp fuel ⟨2 * x.num, x.den⟩
        (p.1, p.2 - 1)
      else (x, 0)

/-- Scale a fraction at or above `2^53` down by powers of two until its
value lies in `[2^52, 2^53)`, returning the scaled fraction and the
binary exponent (`x = m * 2^e`). -/
def scaleDown : Nat → Frac → Frac × Int
  | 0, x => (x, 0)
  | fuel + 1, x =>
      if 9007199254740992 * x.den ≤ x.num then
        let p := scaleDown fuel ⟨x.num, 2 * x.den⟩
        (p.1, p.2 + 1)
      else (x, 0)

/-- The exact value of the binary64 double nearest to the value of `x`
(round-to-nearest, ties-to-even): normalise the significand into
`[2^52, 2^53)`, round it to an integer, and re-apply the exponent.
Exact for positive values in the normal range, which contains every
intermediate value of the progress bar; non-positive inputs (never
produced here) map to zero. -/
def roundToDouble (x : Frac) : Frac :=
  if x.num ≤ 0 then ⟨0, 1⟩
  else
    let p :=
      if x.num < 4503599627370496 * x.den then scaleUp 1200 x
      else scaleDown 1200 x
    let m := rne p.1
    if 0 ≤ p.2 then ⟨m * 2 ^ p.2.toNat, 1⟩ else ⟨m, 2 ^ (-p.2).toNat⟩

/-- `percent = int((step / total_steps) * 100)` (src/bot.py:62): the
division is rounded to binary64, the product with the exact double
`100.0` is rounded to binary64, and `int` truncates (= floor, the value
being non-negative). -/
def pyPercent (step total : Nat) : Int :=
  (roundToDouble ⟨100 * (roundToDouble ⟨step, total⟩).num,
                  (roundToDouble ⟨step, total⟩).den⟩).fl

/-- `filled = int(bar_length * step / total_steps)` (src/bot.py:60)
with `bar_length = 20`: `20 * step` is exact integer arithmetic, the
true division is rounded to binary64, and `int` truncates. -/
def pyFilled (step total : Nat) : Int :=
  (roundToDouble ⟨20 * step, total⟩).fl

/-- One iteration of the progress loop as observed from outside: the
step number, the computed bar fill and percentage, and whether the
single `message.edit_text` call of that step succeeded (`edit_text`
raising is caught by the `except: pass` at src/bot.py:66-67, so the
iteration completes either way). -/
structure StepUpdate where
  step : Nat
  filled : Int
  percent : Int
  delivered : Bool
deriving DecidableEq, Repr

/-- The body of one loop iteration (src/bot.py:59-68): compute the fill
and percentage, attempt exactly one status update (whose success is
given by the transport oracle `editOk`), swallow a failure, and fall
through to the sleep.  Total in all cases: a failing update cannot
abort the iteration. -/
def progressStep (total : Nat) (editOk : Nat → Bool) (step : Nat) :
    StepUpdate :=
  { step := step
    filled := pyFilled step total
    percent := pyPercent step total
    delivered := editOk step }

/-- `progress_bar` (src/bot.py:57-68): the loop
`for step in range(1, total_steps + 1)` runs the body once per step,
yielding one status update per iteration. -/
def progress_bar (total : Nat) (editOk : Nat → Bool) : List StepUpdate :=
  ((List.range total).map (· + 1)).map (progressStep total editOk)

/-- The property C6 asserts of the percentage: for every
`totalSteps ≥ 1` and every step of the loop, the rendered percentage
equals `⌊100 * step / totalSteps⌋`. -/
def percentMatchesFloor : Prop :=
  ∀ total, 1 ≤ total → ∀ step, 1 ≤ step → step ≤ total →
    pyPercent step total = (100 * (step : Int)) / (total : Int)

/-- C6 counterexample: the claim fails at `totalSteps = 100`,
`step = 29`: CPython evaluates `int((29/100)*100)` to `28` (the double
nearest `29/100` is below it, and the product with `100.0` rounds to
`29 - 2^-48`), while `⌊100·29/100⌋ = 29`. -/
theorem percent_not_always_floor : ¬ percentMatchesFloor := by
  intro h
  have h29 := h 100 (by norm_num) 29 (by norm_num) (by norm_num)
  have hval : pyPercent 29 100 = 28 := by decide
  rw [hval] at h29
  norm_num at h29

/-- C6 (amended): for every `totalSteps`, the progress reporter
performs exactly `totalSteps` iterations whose rendered percentage at
step `s` is the binary64 evaluation of `int((s/totalSteps)*100)` —
which does not always equal `⌊100·s/totalSteps⌋` — and for
`totalSteps = 8` every step's percentage does equal the floor; in
particular the step-5 update renders 62. -/
theorem progress_iteration_count_and_percent (total : Nat)
    (editOk : Nat → Bool) :
    (progress_bar total editOk).length = total ∧
    (∀ u ∈ progress_bar total editOk, u.percent = pyPercent u.step total) ∧
    (∀ step, 1 ≤ step → step ≤ 8 →
      pyPercent step 8 = (100 * (step : Int)) / 8) ∧
    pyPercent 5 8 = 62 := by
  refine ⟨by simp [progress_bar], ?_, ?_, by decide⟩
  · intro u hu
    simp only [progress_bar, List.mem_map] at hu
    obtain ⟨s, _, rfl⟩ := hu
    rfl
  · intro step h1 h8
    interval_cases step <;> decide

/-- Witness for C6 (amended) at `totalSteps = 8`, `step = 5`. -/
theorem progress_iteration_count_and_percent_witness :
    pyPercent 5 8 = (100 * (5 : Int)) / 8 :=
  (progress_iteration_count_and_percent 8 (fun _ => true)).2.2.1 5
    (by norm_num) (by norm_num)

/-- C7: each iteration of the progress loop issues exactly one
status-update call (the trace has one update per step, carrying the
step numbers `1..totalSteps` in order), and update failures are
swallowed: the transport oracle never changes the number of iterations
or any computed value — with an always-failing transport all
`totalSteps` iterations still run. -/
theorem progress_update_failures_swallowed (total : Nat)
    (editOk : Nat → Bool) :
    (progress_bar total editOk).length = total ∧
    (progress_bar total editOk).map StepUpdate.step
      = (List.range total).map (· + 1) ∧
    (progress_bar total editOk).map
        (fun u => (u.step, u.filled, u.percent))
      = (progress_bar total (fun _ => false)).map
          (fun u => (u.step, u.filled, u.percent)) ∧
    (progress_bar total (fun _ => false)).length = total := by
  refine ⟨by simp [progress_bar], ?_, ?_, by simp [progress_bar]⟩
  · simp [progress_bar, List.map_map]
    intro a _
    rfl
  · simp [progress_bar, List.map_map]
    intro a _
    exact ⟨rfl, rfl, rfl⟩

/-! ## Split and page count (src/bot.py:50-55, 122-132)

Documents are modelled abstractly as lists of pages (the page type is a
parameter); `PdfReader(path).pages` is the page list of the document at
`path`. -/

/-- `get_page_count` (src/bot.py:50-55): the number of pages of the
document, or `None` when `PdfReader` raises (the input is modelled as
`none` when reading fails). -/
def get_page_count {α : Type} (doc : Option (List α)) : Option Nat :=
  match doc with
  | none => none
  | some pages => some pages.length

/-- The loop of `split_pdf` over `enumerate(reader.pages, start=1)`
(src/bot.py:125-131): for the `i`-th page it writes a one-page document
to `os.path.join(out_folder, f"page_{i}.pdf")` and appends that path to
`out_paths`.  Each element is the pair (output path, pages written to
it). -/
def split_go {α : Type} (dir : String) : Nat → List α → List (String × List α)
  | _, [] => []
  | i, p :: rest =>
      (dir ++ "/page_" ++ toString i ++ ".pdf", [p]) :: split_go dir (i + 1) rest

/-- `split_pdf(input_pdf, out_folder)` (src/bot.py:122-132): the
enumeration starts at 1. -/
def split_pdf {α : Type} (pages : List α) (dir : String) :
    List (String × List α) :=
  split_go dir 1 pages

theorem split_go_length {α : Type} (dir : String) (pages : List α) :
    ∀ start, (split_go dir start pages).length = pages.length := by
  induction pages with
  | nil => intro start; rfl
  | cons p rest ih => intro start; simp [split_go, ih]

theorem split_go_getElem {α : Type} (dir : String) (pages : List α) :
    ∀ start i,
      (split_go dir start pages)[i]?
        = (pages[i]?).map
            (fun p => (dir ++ "/page_" ++ toString (start + i) ++ ".pdf", [p])) := by
  induction pages with
  | nil => intro start i; simp [split_go]
  | cons p rest ih =>
      intro start i
      match i with
      | 0 => simp [split_go]
      | Nat.succ m =>
          have := ih (start + 1) m
          simpa [split_go, Nat.add_assoc, Nat.add_comm 1 m] using this

/-- C8: splitting a document with `N` pages yields exactly `N` outputs
in page order: the `i`-th output (0-based) is the path
`out_folder/page_(i+1).pdf` holding exactly the `i`-th page, and
`get_page_count` on the same (readable) document returns `N`. -/
theorem split_one_output_per_page {α : Type} (pages : List α) (dir : String) :
    (split_pdf pages dir).length = pages.length ∧
    (∀ i, i < pages.length →
      (split_pdf pages dir)[i]?
        = (pages[i]?).map
            (fun p => (dir ++ "/page_" ++ toString (i + 1) ++ ".pdf", [p]))) ∧
    get_page_count (some pages) = some pages.length := by
  refine ⟨split_go_length dir pages 1, ?_, rfl⟩
  intro i _
  simpa [Nat.add_comm 1 i] using split_go_getElem dir pages 1 i

/-- Witness for C8 on a concrete 3-page document: three outputs,
`page_1` through `page_3`, and page count 3. -/
theorem split_one_output_per_page_witness :
    (split_pdf [10, 20, 30] "out").length = 3 ∧
    (split_pdf [10, 20, 30] "out")[1]?
      = some ("out" ++ "/page_" ++ toString (1 + 1) ++ ".pdf", [20]) ∧
    get_page_count (some [10, 20, 30]) = some 3 :=
  ⟨(split_one_output_per_page [10, 20, 30] "out").1,
   (by simpa using
     (split_one_output_per_page [10, 20, 30] "out").2.1 1 (by norm_num)),
   (split_one_output_per_page [10, 20, 30] "out").2.2⟩

/-! ## Merge set and finalize (src/bot.py:36, 134-141)

`MERGE_QUEUE = []` (src/bot.py:36) is a module-level global: a single
ordered list for the whole process, not keyed by session.  The `/merge`
and `/done` command handlers themselves are absent from the source
(only the placeholder comment at src/bot.py:250 mentions them), so
their behaviour is modelled from the spec; the storage they act on is
the global `MERGE_QUEUE` the source declares. -/

/-- A finalize-merge job as passed to `enqueue`: the ordered input
references captured at finalize time and the output destination. -/
structure MergeJob where
  inputs : List String
  output : String
deriving DecidableEq, Repr

/-- The state the merge sub-flow touches: the global `MERGE_QUEUE`
(src/bot.py:36) and the list of jobs passed to `enqueue`, in order. -/
structure MergeState where
  mergeQueue : List String
  jobs : List MergeJob
deriving DecidableEq, Repr

/-- Process start: `MERGE_QUEUE = []`, nothing enqueued. -/
def mergeSt0 : MergeState := ⟨[], []⟩

/-- Modelled from the spec: the `/merge` command handler, absent from
src (placeholder at src/bot.py:250).  Per the spec it "accumulates
multiple uploaded documents into an ordered list (a merge set)";
the list the source declares for this is the process-global
`MERGE_QUEUE`, so recording appends the session's document to it.  The
session id of the caller is taken as an argument; the global list does
not depend on it. -/
def cmd_merge (st : MergeState) (_sid : Nat) (docRef : String) : MergeState :=
  { st with mergeQueue := st.mergeQueue ++ [docRef] }

/-- Modelled from the spec: the `/done` finalize handler, absent from
src.  Per the spec it "drains that ordered list, builds one Job
invoking the merge operation over the whole sequence, and clears the
set": one job capturing the current global merge set is enqueued and
`MERGE_QUEUE` becomes empty. -/
def cmd_done (st : MergeState) (_sid : Nat) (out : String) : MergeState :=
  { mergeQueue := [], jobs := st.jobs ++ [⟨st.mergeQueue, out⟩] }

/-- `merge_pdfs(file_list, output_path)` (src/bot.py:134-141): the
writer accumulates the pages of each listed document in order; `read`
gives each document's pages. -/
def merge_pdfs {α : Type} (read : String → List α) (file_list : List String) :
    List α :=
  file_list.foldl (fun acc f => acc ++ read f) []

/-- Executing a finalize job's payload: invoke `merge_pdfs` on the
captured inputs. -/
def runMergeJob {α : Type} (read : String → List α) (j : MergeJob) : List α :=
  merge_pdfs read j.inputs

/-- A run of merge-set recordings: each element is (session id,
document reference), applied in order. -/
def applyRecords (acts : List (Nat × String)) (st : MergeState) : MergeState :=
  acts.foldl (fun s a => cmd_merge s a.1 a.2) st

/-- The documents a given session recorded during a run, in order. -/
def recordsBy (sid : Nat) (acts : List (Nat × String)) : List String :=
  acts.filterMap fun a => if a.1 = sid then some a.2 else none

/-- The property C5 asserts: the merge set is session-scoped — whenever
a session's recordings during a run (from process start) are exactly
`A, B, C` in that order, that session's finalize produces exactly one
job merging `[A, B, C]`, and the merge set is empty afterwards. -/
def mergeSetSessionScoped : Prop :=
  ∀ acts sid A B C out,
    recordsBy sid acts = [A, B, C] →
    (cmd_done (applyRecords acts mergeSt0) sid out).jobs.map MergeJob.inputs
        = [[A, B, C]] ∧
    (cmd_done (applyRecords acts mergeSt0) sid out).mergeQueue = []

/-- C5 counterexample: `MERGE_QUEUE` is global, so another session's
recording lands in the same set.  Session 1 records A, B, C in that
order while session 2 records X in between; session 1's finalize then
merges `[A, X, B, C]`, not `[A, B, C]`. -/
theorem merge_set_not_session_scoped : ¬ mergeSetSessionScoped := by
  intro h
  have h1 :=
    (h [(1, "A"), (2, "X"), (1, "B"), (1, "C")] 1 "A" "B" "C" "out"
      (by decide)).1
  have h2 :
      (cmd_done
          (applyRecords [(1, "A"), (2, "X"), (1, "B"), (1, "C")] mergeSt0)
          1 "out").jobs.map MergeJob.inputs
        = [["A", "X", "B", "C"]] := by decide
  rw [h2] at h1
  exact absurd h1 (by decide)

/-- C5 (amended): the merge set is one process-global ordered
accumulation shared by all sessions (`MERGE_QUEUE`, src/bot.py:36), not
session-scoped.  When A, B, C are the only documents recorded since
process start — in that order, by any sessions — finalize (by any
session) produces exactly one job whose payload invokes the merge
operation over `[A, B, C]` (concatenating their pages in order), and
the global merge set is empty after finalize. -/
theorem merge_finalize_drains_global_set (sid1 sid2 sid3 sidF : Nat)
    (A B C out : String) :
    (cmd_done (cmd_merge (cmd_merge (cmd_merge mergeSt0 sid1 A) sid2 B) sid3 C)
        sidF out).jobs
      = [⟨[A, B, C], out⟩] ∧
    (cmd_done (cmd_merge (cmd_merge (cmd_merge mergeSt0 sid1 A) sid2 B) sid3 C)
        sidF out).mergeQueue
      = [] ∧
    ∀ {α : Type} (read : String → List α),
      runMergeJob read ⟨[A, B, C], out⟩ = read A ++ read B ++ read C := by
  refine ⟨rfl, rfl, ?_⟩
  intro α read
  simp [runMergeJob, merge_pdfs]

end PdfBot
